import Mathlib

/-!
Verification development for the Odoo product-variant configurator
(`gateway.py` — FastAPI gateway, and `bot.py` — the session state machine).

The gateway endpoints are embedded as pure functions over an explicit
in-memory `Catalog` that stands for the Odoo backend data consulted through
`search_read` / `execute_kw`; the bot handlers are embedded as functions
from a `SessionData` record (the per-user `context.user_data` dictionary)
and a typed callback command to the updated record plus the conversation
state returned by the handler.
-/

/-- Python `(x or None)` applied to an optional string: the empty string is
falsy and becomes `None`; other strings (including whitespace-only) pass
through. Used by `gateway.py` for `default_code` / `barcode` cleanup. -/
def emptyToNone (o : Option String) : Option String :=
  match o with
  | some s => if s = "" then none else some s
  | none => none

/-- Python's `str.strip()`: drop leading and trailing whitespace.  Written
over the character list with structural recursion so that it evaluates on
concrete inputs. -/
def pyStrip (s : String) : String :=
  String.mk (((s.data.dropWhile Char.isWhitespace).reverse.dropWhile
    Char.isWhitespace).reverse)

/-- `gateway.py`'s recurring cleanup `if not isinstance(dc, str) or not
dc.strip(): dc = None`: a missing or blank (whitespace-only) string becomes
`None`. -/
def blankToNone (o : Option String) : Option String :=
  match o with
  | some s => if pyStrip s = "" then none else some s
  | none => none

/-- `pat` occurs at the head of `l`. Helper for the `ilike` model. -/
def listStarts : List Char → List Char → Bool
  | [], _ => true
  | _ :: _, [] => false
  | p :: ps, c :: cs => p == c && listStarts ps cs

/-- `pat` occurs somewhere inside `l` as a contiguous run. -/
def listHasSub (pat : List Char) : List Char → Bool
  | [] => pat.isEmpty
  | c :: cs => listStarts pat (c :: cs) || listHasSub pat cs

/-- Model of Odoo's `ilike` operator: case-insensitive substring match
(both sides lower-cased). -/
def strContains (s sub : String) : Bool :=
  listHasSub (sub.data.map Char.toLower) (s.data.map Char.toLower)

/-- A row of `res.users` as consulted by `_resolve_users`
(`gateway.py` lines 130-147). -/
structure UserRec where
  id : Nat
  name : String
  login : String
deriving DecidableEq

/-- A row of `product.template` with the fields the gateway reads. -/
structure TemplateRec where
  id : Nat
  name : String
  default_code : Option String
  create_uid : Nat
deriving DecidableEq

/-- A row of `product.template.attribute.value` (PTAV): the template-scoped
instantiation of a raw attribute value.  `pavId` is the
`product_attribute_value_id` field resolved by `_ptav_ids_for_values`. -/
structure PtavRec where
  id : Nat
  templateId : Nat
  pavId : Nat
deriving DecidableEq

/-- A row of `product.product` with the fields read by
`_find_variant_by_ptav_set` (`gateway.py` lines 350-371). -/
structure VariantRec where
  id : Nat
  templateId : Nat
  displayName : Option String
  defaultCode : Option String
  barcode : Option String
  ptavIds : List Nat
  active : Bool
deriving DecidableEq

/-- The backend state consulted by the gateway: each list stands for an Odoo
model queried via `search_read`, and the two name lists stand for the
`name_get` results used by `_name_map`. -/
structure Catalog where
  templates : List TemplateRec
  users : List UserRec
  attribute_names : List (Nat × String)
  value_names : List (Nat × String)
  ptavs : List PtavRec
  products : List VariantRec
deriving DecidableEq

/-- `_name_map` (`gateway.py` lines 208-212): a Python dict built from
`name_get` pairs; a later pair for the same id overwrites an earlier one. -/
def nameMap (pairs : List (Nat × String)) (id : Nat) : Option String :=
  (pairs.reverse.find? (fun x => x.1 == id)).map (fun x => x.2)

/-- An HTTPException raised by a gateway endpoint. -/
structure HTTPError where
  status : Nat
  detail : String
deriving DecidableEq

/-- `POST /config/start` request body (`StartReq`). -/
structure StartReq where
  query : String
  created_by : Option String
deriving DecidableEq

/-- One search match (`Choice`). -/
structure Choice where
  id : Nat
  name : Option String
  default_code : Option String
deriving DecidableEq

/-- `POST /config/start` response body (`StartResp`).  The `matches` field
is spelled `matches'` because `matches` is a reserved word in Lean. -/
structure StartResp where
  ok : Bool
  matches' : List Choice
  message : Option String
deriving DecidableEq

/-- `_resolve_users` (`gateway.py` lines 130-147): exact name/login match
first (limit 20); if that finds nothing, fall back to an `ilike` name match
(limit 20); return the matching user ids. -/
def resolve_users (users : List UserRec) (expr : String) : List Nat :=
  let e := pyStrip expr
  if e = "" then []
  else
    let rows := (users.filter (fun u => u.name == e || u.login == e)).take 20
    let rows := if rows = [] then (users.filter (fun u => strContains u.name e)).take 20 else rows
    rows.map (fun u => u.id)

/-- The `msg` built at the end of `config_start`. -/
def startMessage (n : Nat) (created_by : Option String) : String :=
  (if n = 1 then "1 match" else toString n ++ " matches") ++
    (match created_by with
     | some c => " (created_by=" ++ c ++ ")"
     | none => "")

/-- Projection of a template row to a search `Choice`, with the
name/default_code cleanup done in the `config_start` loop. -/
def toChoice (t : TemplateRec) : Choice :=
  { id := t.id, name := some t.name, default_code := blankToNone t.default_code }

/-- `config_start` (`gateway.py` lines 149-181): search `product.template`
by case-insensitive name substring, optionally filtered to templates created
by the resolved users, with `limit=20` passed to `search_read`. -/
def config_start (cat : Catalog) (payload : StartReq) : Except HTTPError StartResp :=
  let q := pyStrip payload.query
  if q = "" then Except.error { status := 400, detail := "query is required" }
  else
    let cb := payload.created_by.getD ("")
    if cb ≠ "" then
      let uids := resolve_users cat.users cb
      if uids = [] then
        Except.ok { ok := true, matches' := [],
                    message := some ("No users match \x27" ++ cb ++ "\x27") }
      else
        let rows := (cat.templates.filter
          (fun t => strContains t.name q && uids.contains t.create_uid)).take 20
        let ms := rows.map toChoice
        Except.ok { ok := true, matches' := ms,
                    message := some (startMessage ms.length (some cb)) }
    else
      let rows := (cat.templates.filter (fun t => strContains t.name q)).take 20
      let ms := rows.map toChoice
      Except.ok { ok := true, matches' := ms,
                  message := some (startMessage ms.length none) }

/-- `Except.isOk` as a plain definition over the gateway result type. -/
def exceptIsOk {α : Type} (e : Except HTTPError α) : Bool :=
  match e with
  | Except.ok _ => true
  | Except.error _ => false

deriving instance DecidableEq for Except

/-- `TemplateSummary` as returned inside prepare/init responses. -/
structure TemplateSummary where
  id : Nat
  name : Option String
  default_code : Option String
deriving DecidableEq

/-- One requested selection (`Selection` in `gateway.py`). -/
structure Selection where
  attribute_id : Nat
  value_id : Nat
deriving DecidableEq

/-- `POST /config/prepare` request body (`PrepareReq`). -/
structure PrepareReq where
  template_id : Nat
  selections : List Selection
  default_code : Option String
  barcode : Option String
deriving DecidableEq

/-- `VariantInfo` as returned by prepare/create. -/
structure VariantInfo where
  id : Nat
  display_name : Option String
  default_code : Option String
  barcode : Option String
  active : Bool
deriving DecidableEq

/-- `EnrichedSelection` as returned by prepare. -/
structure EnrichedSelection where
  attribute_id : Nat
  attribute_name : Option String
  value_id : Nat
  value_name : Option String
  ptav_id : Option Nat
deriving DecidableEq

/-- `POST /config/prepare` response body (`PrepareResp`). -/
structure PrepareResp where
  ok : Bool
  template : TemplateSummary
  selections : List EnrichedSelection
  ptav_ids : List Nat
  existing_variant : Option VariantInfo
  message : Option String
deriving DecidableEq

/-- `_ptav_ids_for_values` (`gateway.py` lines 323-348): query the PTAV rows
of the template whose raw value id is among `value_ids` (limit 500) and
build the dict `raw value id -> PTAV id`; a later row overwrites an earlier
one exactly as repeated dict assignment does. -/
def ptav_ids_for_values (ptavs : List PtavRec) (template_id : Nat)
    (value_ids : List Nat) : Nat → Option Nat :=
  fun pav =>
    let rows := (ptavs.filter
      (fun r => r.templateId == template_id && value_ids.contains r.pavId)).take 500
    (rows.reverse.find? (fun r => r.pavId == pav)).map (fun r => r.id)

/-- Projection of a catalog variant row to the dict built by
`_find_variant_by_ptav_set` on a match (`gateway.py` lines 363-370),
including the `or None` cleanup of `default_code` / `barcode`. -/
def variantInfoOf (p : VariantRec) : VariantInfo :=
  { id := p.id, display_name := p.displayName,
    default_code := emptyToNone p.defaultCode,
    barcode := emptyToNone p.barcode, active := p.active }

/-- `_find_variant_by_ptav_set` (`gateway.py` lines 350-371): an empty PTAV
id list short-circuits to `None` before any query; otherwise every variant
(active and archived) of the template is fetched (limit 2000) and the first
one whose PTAV id *set* equals the requested set is returned. -/
def find_variant_by_ptav_set (prods : List VariantRec) (template_id : Nat)
    (ptav_ids : List Nat) : Option VariantInfo :=
  if ptav_ids = [] then none
  else
    let rows := (prods.filter (fun p => p.templateId == template_id)).take 2000
    let want := ptav_ids.toFinset
    (rows.find? (fun p => p.ptavIds.toFinset = want)).map variantInfoOf

/-- The PTAV id list accumulated by the `config_prepare` loop
(`gateway.py` lines 401-416): each selection's raw value id is looked up in
the canonical mapping and the result is appended only when it is truthy
(`if ptav_id:`), i.e. present and non-zero; unresolved ids are silently
skipped. -/
def resolved_ptav_ids (cat : Catalog) (tid : Nat) (sels : List Selection) : List Nat :=
  let mapping := ptav_ids_for_values cat.ptavs tid (sels.map Selection.value_id)
  sels.filterMap (fun s =>
    match mapping s.value_id with
    | some p => if p ≠ 0 then some p else none
    | none => none)

/-- The `existing` variant computed by `config_prepare` (line 418): the
set-based duplicate check applied to the resolved PTAV ids. -/
def prepare_existing (cat : Catalog) (tid : Nat) (sels : List Selection) :
    Option VariantInfo :=
  find_variant_by_ptav_set cat.products tid (resolved_ptav_ids cat tid sels)

/-- `config_prepare` (`gateway.py` lines 373-428): 404 when the template id
is unknown; otherwise enrich the selections with names and PTAV ids and run
the set-based duplicate check.  Note that it never fails on selections whose
value id does not resolve on the template: their `ptav_id` stays `None` and
they are left out of `ptav_ids`. -/
def config_prepare (cat : Catalog) (payload : PrepareReq) :
    Except HTTPError PrepareResp :=
  match (cat.templates.filter (fun t => t.id == payload.template_id)).head? with
  | none =>
    Except.error
      { status := 404,
        detail := "product.template " ++ toString payload.template_id ++ " not found" }
  | some trow =>
    let mapping := ptav_ids_for_values cat.ptavs payload.template_id
      (payload.selections.map Selection.value_id)
    let enriched := payload.selections.map (fun s =>
      ({ attribute_id := s.attribute_id
         attribute_name := nameMap cat.attribute_names s.attribute_id
         value_id := s.value_id
         value_name := nameMap cat.value_names s.value_id
         ptav_id := mapping s.value_id } : EnrichedSelection))
    let existing := prepare_existing cat payload.template_id payload.selections
    Except.ok {
      ok := true
      template := { id := trow.id, name := some trow.name,
                    default_code := blankToNone trow.default_code }
      selections := enriched
      ptav_ids := resolved_ptav_ids cat payload.template_id payload.selections
      existing_variant := existing
      message := some (if existing.isSome then "Exact variant already exists."
                       else "No exact variant exists yet. Ready to create in the next step.") }

/-- `POST /config/create` request body (`CreateReq`, same shape as
`PrepareReq`). -/
structure CreateReq where
  template_id : Nat
  selections : List Selection
  default_code : Option String
  barcode : Option String
deriving DecidableEq

/-- `POST /config/create` response body (`CreateResp`). -/
structure CreateResp where
  ok : Bool
  created : Bool
  variant : VariantInfo
  message : Option String
deriving DecidableEq

/-- An exception raised by the Odoo `product.product` `create` call.  The
catalog rejecting a duplicate combination is one possible exception; any
other backend failure is `other`. -/
inductive OdooError where
  | duplicateCombination : OdooError
  | other : String → OdooError
deriving DecidableEq

/-- The `str(e)` text interpolated into the 502 detail. -/
def odooErrorText : OdooError → String
  | OdooError.duplicateCombination => "DuplicateCombination"
  | OdooError.other m => m

/-- The `missing` list of `config_create` (line 461): raw value ids absent
from the canonical mapping (Python dict membership, `v not in pav_to_ptav`). -/
def create_missing (cat : Catalog) (tid : Nat) (value_ids : List Nat) : List Nat :=
  let mapping := ptav_ids_for_values cat.ptavs tid value_ids
  value_ids.filter (fun v => (mapping v).isNone)

/-- The PTAV id list of `config_create` (line 467): direct dict indexing,
well-defined once `missing` is empty (the `getD 0` default is never hit
then). -/
def create_ptav_ids (cat : Catalog) (tid : Nat) (value_ids : List Nat) : List Nat :=
  let mapping := ptav_ids_for_values cat.ptavs tid value_ids
  value_ids.map (fun v => (mapping v).getD 0)

/-- The 400 detail string of `config_create` referencing the offending ids. -/
def missingDetail (tid : Nat) (missing : List Nat) : String :=
  "Selected values not on template " ++ toString tid ++ ": " ++ toString missing

/-- The `info` dict built after a successful create (`gateway.py` lines
500-512): the new variant is read back from the (post-create) catalog; when
the read-back finds nothing the payload's code/barcode are used, and the
`or None` cleanup is applied in both cases. -/
def created_variant_info (post : List VariantRec) (new_id : Nat)
    (dc bc : Option String) : VariantInfo :=
  match (post.filter (fun p => p.id == new_id)).head? with
  | some p =>
    { id := new_id, display_name := p.displayName,
      default_code := emptyToNone p.defaultCode,
      barcode := emptyToNone p.barcode, active := p.active }
  | none =>
    { id := new_id, display_name := none, default_code := emptyToNone dc,
      barcode := emptyToNone bc, active := true }

/-- `config_create` (`gateway.py` lines 445-519).  `createResult` is the
outcome of the Odoo `product.product` `create` call (a new id, or any
raised exception — the `except Exception` handler does not inspect it), and
`postProducts` is the catalog's variant list as seen by the queries issued
*after* that call (the race-fallback re-check and the read-back), which a
concurrent creation may have extended. -/
def config_create (cat : Catalog) (createResult : Except OdooError Nat)
    (postProducts : List VariantRec) (payload : CreateReq) :
    Except HTTPError CreateResp :=
  match (cat.templates.filter (fun t => t.id == payload.template_id)).head? with
  | none =>
    Except.error
      { status := 404,
        detail := "product.template " ++ toString payload.template_id ++ " not found" }
  | some _ =>
    if create_missing cat payload.template_id (payload.selections.map Selection.value_id) = [] then
      match find_variant_by_ptav_set cat.products payload.template_id
          (create_ptav_ids cat payload.template_id (payload.selections.map Selection.value_id)) with
      | some existing =>
        Except.ok
          { ok := true, created := false, variant := existing,
            message := some ("Exact variant already exists. You can use it or change selections.") }
      | none =>
        match createResult with
        | Except.error e =>
          match find_variant_by_ptav_set postProducts payload.template_id
              (create_ptav_ids cat payload.template_id (payload.selections.map Selection.value_id)) with
          | some fallback =>
            Except.ok
              { ok := true, created := false, variant := fallback,
                message := some ("Variant already exists (detected during create).") }
          | none =>
            Except.error { status := 502, detail := "Odoo create error: " ++ odooErrorText e }
        | Except.ok new_id =>
          Except.ok
            { ok := true, created := true,
              variant := created_variant_info postProducts new_id payload.default_code payload.barcode,
              message := some ("Variant created.") }
    else
      Except.error
        { status := 400,
          detail := missingDetail payload.template_id
            (create_missing cat payload.template_id (payload.selections.map Selection.value_id)) }

/-- `last_page = max(0, math.ceil(total / per_page) - 1)` as computed at the
top of `build_template_keyboard` and `build_attr_keyboard` (`bot.py` lines
163 and 186); `(total + per - 1) / per` is the integer form of
`math.ceil(total / per)` for `per > 0`. -/
def lastPage (total per : Nat) : Nat :=
  max 0 ((total + per - 1) / per - 1)

/-- `page = max(0, min(page, last_page))` (`bot.py` lines 164 and 187): the
page cursor as clamped at render time.  The stored cursor is a Python int
and may be negative (`tplpage:-3` parses), hence the `Int` argument. -/
def clampedPage (total : Nat) (page : Int) (per : Nat) : Nat :=
  (max 0 (min page (lastPage total per : Int))).toNat

/-- The rendered slice `items[start:end]` with
`start, end = page * per_page, page * per_page + per_page` (`bot.py` lines
165-166 and 188-189), at the clamped page. -/
def window {α : Type} (items : List α) (page : Int) (per : Nat) : List α :=
  (items.drop (clampedPage items.length page per * per)).take per

/-- One value button (`values` entries of a `/config/init` attribute). -/
structure AttrValue where
  id : Nat
  name : Option String
deriving DecidableEq

/-- One attribute block of the `/config/init` response. -/
structure InitAttr where
  attribute_id : Nat
  attribute_name : Option String
  values : List AttrValue
deriving DecidableEq

/-- The part of the `/config/init` response consumed by `on_template_nav`. -/
structure InitResp where
  attributes : List InitAttr
deriving DecidableEq

/-- A session-local attribute entry: the `/config/init` block decorated with
`page` and `selected` (`bot.py` lines 358-363). -/
structure AttrState where
  attribute_id : Nat
  attribute_name : Option String
  values : List AttrValue
  page : Int
  selected : Option Nat
deriving DecidableEq

/-- The per-user `context.user_data` dictionary of the variant flow
(`reset_session`, `bot.py` lines 215-234), restricted to the keys that flow
touches; the qty-list and list-variants mini-flow keys are independent of
the claims and omitted. -/
structure SessionData where
  stage : Option String
  query : Option String
  matches' : List Choice
  tpl_page : Int
  template : Option (Nat × Option String)
  attributes : List AttrState
  current_idx : Nat
  default_code : Option String
  barcode : Option String
deriving DecidableEq

/-- `reset_session`: every key back to its default. -/
def reset_session : SessionData :=
  { stage := none, query := none, matches' := [], tpl_page := 0,
    template := none, attributes := [], current_idx := 0,
    default_code := none, barcode := none }

/-- The `ConversationHandler` states of the variant flow (`bot.py` line 151)
plus the terminal `ConversationHandler.END`. -/
inductive ConvState where
  | SEARCH
  | PICK_TEMPLATE
  | PICK_ATTR
  | ASK_CODE
  | ASK_BARCODE
  | END
deriving DecidableEq

/-- A gateway reply as seen by a handler through `gw_post`: either the ok
response body or a not-ok dict carrying only a message. -/
inductive GwResult (α : Type) where
  | ok : α → GwResult α
  | fail : String → GwResult α
deriving DecidableEq

/-- The callback strings handled by `on_template_nav`
(`tpl:<id> | tplpage:<signed int> | search:new`). -/
inductive TplCmd where
  | searchNew : TplCmd
  | page : Int → TplCmd
  | pick : Nat → TplCmd
deriving DecidableEq

/-- The callback strings handled by `on_attr_callback`
(`attr:back | attrpage:+1 | attrpage:-1 | val:<attr>:<val>`); `page true`
is `attrpage:+1`. -/
inductive AttrCmd where
  | back : AttrCmd
  | page : Bool → AttrCmd
  | val : Nat → Nat → AttrCmd
deriving DecidableEq

/-- The callback strings handled by `on_review_callback`
(`use:<id> | change:attrs | create:new`). -/
inductive ReviewCmd where
  | use : Nat → ReviewCmd
  | changeAttrs : ReviewCmd
  | createNew : ReviewCmd
deriving DecidableEq

/-- `send_current_attribute` (`bot.py` lines 374-395): when the index has
run past the attribute list, hand over to `ask_internal_ref` (which sets
`stage = "ask_code"` and returns `ASK_CODE`); otherwise re-render the
current attribute and stay in `PICK_ATTR`.  Message rendering is transport
and not modelled. -/
def send_current_attribute (ud : SessionData) : SessionData × ConvState :=
  if ud.current_idx ≥ ud.attributes.length then
    ({ ud with stage := some ("ask_code") }, ConvState.ASK_CODE)
  else
    (ud, ConvState.PICK_ATTR)

/-- `on_template_nav` (`bot.py` lines 320-372).  `gw` is the `/config/init`
reply consulted only on a `tpl:<id>` pick. -/
def on_template_nav (ud : SessionData) (cmd : TplCmd) (gw : GwResult InitResp) :
    SessionData × ConvState :=
  match cmd with
  | TplCmd.searchNew => ({ ud with stage := some ("search") }, ConvState.SEARCH)
  | TplCmd.page n => ({ ud with tpl_page := n }, ConvState.PICK_TEMPLATE)
  | TplCmd.pick tpl_id =>
    match gw with
    | GwResult.fail _ => (ud, ConvState.SEARCH)
    | GwResult.ok resp =>
      let tpl_name : Option String :=
        match (ud.matches'.filter (fun m => m.id == tpl_id)).head? with
        | some m =>
          some (match m.name with
                | some s => if s = "" then "Template " ++ toString tpl_id else s
                | none => "Template " ++ toString tpl_id)
        | none => none
      let decorated := resp.attributes.map (fun a =>
        ({ attribute_id := a.attribute_id, attribute_name := a.attribute_name,
           values := a.values, page := 0, selected := none } : AttrState))
      send_current_attribute
        { ud with template := some (tpl_id, tpl_name), attributes := decorated,
                  current_idx := 0, stage := some ("pick_attr") }

/-- `on_attr_callback` (`bot.py` lines 397-435): guard `idx >= len(attrs)`
first; `attr:back` decrements the index only when positive and never touches
the selections; `attrpage:±1` stores `max(0, page + step)` — clamped below
only; `val:<a>:<v>` records the selection and advances, moving to
`ask_internal_ref` when the last attribute was just answered. -/
def on_attr_callback (ud : SessionData) (cmd : AttrCmd) : SessionData × ConvState :=
  if h : ud.current_idx < ud.attributes.length then
    match cmd with
    | AttrCmd.back =>
      if 0 < ud.current_idx then
        send_current_attribute { ud with current_idx := ud.current_idx - 1 }
      else
        send_current_attribute ud
    | AttrCmd.page plus =>
      let step : Int := if plus then 1 else -1
      let a := ud.attributes[ud.current_idx]
      let a' := { a with page := max 0 (a.page + step) }
      send_current_attribute { ud with attributes := ud.attributes.set ud.current_idx a' }
    | AttrCmd.val _ val_id =>
      let a := ud.attributes[ud.current_idx]
      let a' := { a with selected := some val_id }
      let ud' := { ud with attributes := ud.attributes.set ud.current_idx a',
                           current_idx := ud.current_idx + 1 }
      if ud'.current_idx ≥ ud.attributes.length then
        ({ ud' with stage := some ("ask_code") }, ConvState.ASK_CODE)
      else
        send_current_attribute ud'
  else
    send_current_attribute ud

/-- `on_review_callback` (`bot.py` lines 511-558).  `gw` is the
`/config/create` reply consulted only on `create:new`.  On `use:<id>` and on
a successful create the session is reset and the conversation ends; on
`change:attrs` the index and every page cursor are reset with the selections
kept; on a failed create the error is shown and the handler returns
`ConversationHandler.END` *without* resetting the session data. -/
def on_review_callback (ud : SessionData) (cmd : ReviewCmd)
    (gw : GwResult CreateResp) : SessionData × ConvState :=
  match cmd with
  | ReviewCmd.use _ => (reset_session, ConvState.END)
  | ReviewCmd.changeAttrs =>
    send_current_attribute
      { ud with current_idx := 0,
                attributes := ud.attributes.map (fun a => { a with page := 0 }) }
  | ReviewCmd.createNew =>
    match gw with
    | GwResult.fail _ => (ud, ConvState.END)
    | GwResult.ok _ => (reset_session, ConvState.END)

/-- Every session-local attribute page cursor is non-negative. -/
def pagesNonneg (ud : SessionData) : Prop :=
  ∀ a ∈ ud.attributes, 0 ≤ a.page

/-- Demo template: id 1, two attributes Color/Size. -/
def demoTemplate : TemplateRec :=
  { id := 1, name := "Tee", default_code := none, create_uid := 9 }

/-- Demo variant of template 1 carrying the PTAV combination {11, 12}. -/
def demoVariantRec : VariantRec :=
  { id := 100, templateId := 1, displayName := some ("Tee (Red, S)"),
    defaultCode := some ("TRS"), barcode := some ("111"),
    ptavIds := [11, 12], active := true }

/-- Demo catalog: template 1 with raw values 5 (Red) and 6 (S) instantiated
as PTAVs 11 and 12, and one existing variant for {Red, S}. -/
def demoCat : Catalog :=
  { templates := [demoTemplate]
    users := []
    attribute_names := [(1, "Color"), (2, "Size")]
    value_names := [(5, "Red"), (6, "S")]
    ptavs := [{ id := 11, templateId := 1, pavId := 5 },
              { id := 12, templateId := 1, pavId := 6 }]
    products := [demoVariantRec] }

/-- `variantInfoOf` of the demo variant. -/
def demoVariantInfo : VariantInfo := variantInfoOf demoVariantRec

/-- {Red, S} selected in attribute order. -/
def demoSelsA : List Selection := [{ attribute_id := 1, value_id := 5 },
                                   { attribute_id := 2, value_id := 6 }]

/-- {S, Red}: the same set selected in the opposite order. -/
def demoSelsB : List Selection := [{ attribute_id := 2, value_id := 6 },
                                   { attribute_id := 1, value_id := 5 }]

/-- A prepare request whose raw value id 99 is not on template 1 (a stale
UI selection). -/
def demoStaleReq : PrepareReq :=
  { template_id := 1, selections := [{ attribute_id := 7, value_id := 99 }],
    default_code := none, barcode := none }

/-- The create-side copy of `demoStaleReq`. -/
def demoStaleCreateReq : CreateReq :=
  { template_id := 1, selections := [{ attribute_id := 7, value_id := 99 }],
    default_code := none, barcode := none }

/-- The demo catalog with no variants yet: the state a racing create starts
from. -/
def demoRaceCat : Catalog := { demoCat with products := [] }

/-- The create request of the racing session. -/
def demoRaceReq : CreateReq :=
  { template_id := 1, selections := demoSelsA,
    default_code := some ("TRS"), barcode := some ("111") }

/-- A search request whose `created_by` filter resolves to no users. -/
def demoStartReq : StartReq := { query := "shirt", created_by := some ("ghost") }

/-- The reply `config_start` gives to `demoStartReq` over `demoCat`. -/
def demoStartResp : StartResp :=
  { ok := true, matches' := [],
    message := some ("No users match \x27ghost\x27") }

/-- Eleven attribute values: two keyboard pages at `per_page = 10`. -/
def demoVals11 : List AttrValue :=
  (List.range 11).map (fun i => { id := i + 50, name := some ("V" ++ toString i) })

/-- A `/config/init` reply with one attribute holding eleven values. -/
def demoInitResp : InitResp :=
  { attributes := [{ attribute_id := 3, attribute_name := some ("Thickness"),
                     values := demoVals11 }] }

/-- Session right before the template pick. -/
def c5_s0 : SessionData :=
  { reset_session with
    stage := some ("pick_template"),
    matches' := [{ id := 1, name := some ("Tee"), default_code := none }] }

/-- Session after picking template 1. -/
def c5_s1 : SessionData :=
  (on_template_nav c5_s0 (TplCmd.pick 1) (GwResult.ok demoInitResp)).1

/-- Session after one `attrpage:+1`. -/
def c5_s2 : SessionData := (on_attr_callback c5_s1 (AttrCmd.page true)).1

/-- Session after a second `attrpage:+1` (the second press comes from the
keyboard rendered at page 0, which is still on screen). -/
def c5_s3 : SessionData := (on_attr_callback c5_s2 (AttrCmd.page true)).1

/-- A session mid-selection: three attributes, the first two answered,
`current_idx = 2`. -/
def demoC6Ud : SessionData :=
  { reset_session with
    stage := some ("pick_attr"),
    template := some (1, some ("Tee")),
    attributes := [
      { attribute_id := 1, attribute_name := some ("Color"),
        values := [{ id := 5, name := some ("Red") }], page := 0, selected := some 5 },
      { attribute_id := 2, attribute_name := some ("Size"),
        values := [{ id := 6, name := some ("S") }], page := 0, selected := some 6 },
      { attribute_id := 3, attribute_name := some ("Thickness"),
        values := demoVals11, page := 1, selected := none }],
    current_idx := 2 }

/-- A session at the review step (the prompt shown after `/config/prepare`),
with all selections made and code/barcode captured. -/
def demoReviewUd : SessionData :=
  { reset_session with
    stage := some ("ask_barcode"),
    query := some ("tee"),
    matches' := [{ id := 1, name := some ("Tee"), default_code := none }],
    template := some (1, some ("Tee")),
    attributes := [
      { attribute_id := 1, attribute_name := some ("Color"),
        values := [{ id := 5, name := some ("Red") }], page := 0, selected := some 5 },
      { attribute_id := 2, attribute_name := some ("Size"),
        values := [{ id := 6, name := some ("S") }], page := 0, selected := some 6 }],
    current_idx := 2,
    default_code := some ("TRS"), barcode := some ("111") }

theorem send_current_fst_attributes (ud : SessionData) :
    (send_current_attribute ud).1.attributes = ud.attributes := by
  unfold send_current_attribute
  split <;> rfl

theorem send_current_fst_current_idx (ud : SessionData) :
    (send_current_attribute ud).1.current_idx = ud.current_idx := by
  unfold send_current_attribute
  split <;> rfl

theorem pagesNonneg_eq {u v : SessionData} (h : u.attributes = v.attributes) :
    pagesNonneg v → pagesNonneg u := by
  intro hp
  unfold pagesNonneg at *
  rw [h]
  exact hp

/-- Claim C4 (counterexample): on a gateway error during `create:new` from
the review prompt, `on_review_callback` returns `ConversationHandler.END` —
the conversation does *not* stay in the review state (`PICK_TEMPLATE`),
contradicting the claim that the session stays in Reviewing. -/
theorem C4_counterexample :
    ((on_review_callback demoReviewUd ReviewCmd.createNew (GwResult.fail ("boom"))).2
      = ConvState.END) ∧
    (ConvState.END ≠ ConvState.PICK_TEMPLATE) ∧
    ((on_review_callback demoReviewUd ReviewCmd.createNew (GwResult.fail ("boom"))).1
      = demoReviewUd) := by
  decide

/-- Claim C4 (amended): on a gateway error during `create:new` the error is
shown and the session data — selections included — is left untouched (no
`reset_session`), but the handler ends the conversation
(`ConversationHandler.END`, back to the main menu) instead of staying in the
Reviewing state. -/
theorem C4_amended_error_keeps_data_but_ends (ud : SessionData) (msg : String) :
    on_review_callback ud ReviewCmd.createNew (GwResult.fail msg)
      = (ud, ConvState.END) := rfl

/-- Claim C6: `attr:back` decrements `current_idx` when it is positive,
leaves it (and everything else) unchanged at index 0, never touches any
attribute's `selected` value, and stays in the attribute-picking state. -/
theorem C6_back_preserves_selections (ud : SessionData)
    (h : ud.current_idx < ud.attributes.length) :
    ((on_attr_callback ud AttrCmd.back).1.attributes = ud.attributes) ∧
    ((on_attr_callback ud AttrCmd.back).2 = ConvState.PICK_ATTR) ∧
    (0 < ud.current_idx →
      (on_attr_callback ud AttrCmd.back).1.current_idx = ud.current_idx - 1) ∧
    (ud.current_idx = 0 → (on_attr_callback ud AttrCmd.back).1 = ud) := by
  unfold on_attr_callback
  rw [dif_pos h]
  by_cases h0 : 0 < ud.current_idx
  · rw [if_pos h0]
    refine ⟨?_, ?_, fun _ => ?_, fun hz => absurd hz (by omega)⟩
    · rw [send_current_fst_attributes]
    · unfold send_current_attribute
      rw [if_neg (by simp only [not_le]; omega)]
    · rw [send_current_fst_current_idx]
  · rw [if_neg h0]
    refine ⟨?_, ?_, fun hpos => absurd hpos h0, fun _ => ?_⟩
    · rw [send_current_fst_attributes]
    · unfold send_current_attribute
      rw [if_neg (by simp only [not_le]; omega)]
    · unfold send_current_attribute
      rw [if_neg (by simp only [not_le]; omega)]

theorem C6_witness :
    (demoC6Ud.current_idx < demoC6Ud.attributes.length) ∧
    ((on_attr_callback demoC6Ud AttrCmd.back).1.attributes = demoC6Ud.attributes) ∧
    ((on_attr_callback demoC6Ud AttrCmd.back).1.current_idx
      = demoC6Ud.current_idx - 1) :=
  ⟨by decide, (C6_back_preserves_selections demoC6Ud (by decide)).1,
   (C6_back_preserves_selections demoC6Ud (by decide)).2.2.1 (by decide)⟩

/-- Claim C5 (counterexample): two `attrpage:+1` presses on an attribute
with eleven values (`last_page = 1` at `per_page = 10`) leave the *stored*
page cursor at 2, outside `[0, last_page]` — the handler stores
`max(0, page + 1)` without an upper clamp, so invariant I4 fails on
reachable session states. -/
theorem C5_counterexample :
    (c5_s3.attributes.map (fun a => (a.page, a.values.length)) = [((2 : Int), 11)]) ∧
    (lastPage 11 10 = 1) ∧
    ¬ ((2 : Int) ≤ (lastPage 11 10 : Int)) := by
  decide

/-- Claim C5 (amended): cursors are clamped into `[0, last_page]` only at
render time — the page the keyboard builders actually use always lies in
the range — while the handlers keep the stored attribute cursors
non-negative only (`max(0, page ± 1)`); a stored cursor may exceed
`last_page`. -/
theorem C5_amended_clamped_at_render_only :
    (∀ (total : Nat) (page : Int) (per : Nat),
        clampedPage total page per ≤ lastPage total per) ∧
    (∀ (ud : SessionData) (cmd : AttrCmd),
        pagesNonneg ud → pagesNonneg (on_attr_callback ud cmd).1) := by
  constructor
  · intro total page per
    unfold clampedPage
    rw [Int.toNat_le]
    exact max_le (Int.natCast_nonneg _) (min_le_right _ _)
  · intro ud cmd hp
    unfold on_attr_callback
    split
    case isTrue h =>
      split
      · split
        · exact pagesNonneg_eq (by rw [send_current_fst_attributes]) hp
        · exact pagesNonneg_eq (by rw [send_current_fst_attributes]) hp
      · refine pagesNonneg_eq (send_current_fst_attributes _) ?_
        intro a ha
        rcases List.mem_or_eq_of_mem_set ha with h1 | h1
        · exact hp a h1
        · rw [h1]
          exact le_max_left 0 _
      · dsimp only
        split
        · intro a ha
          rcases List.mem_or_eq_of_mem_set ha with h1 | h1
          · exact hp a h1
          · rw [h1]
            exact hp ud.attributes[ud.current_idx] (List.getElem_mem h)
        · refine pagesNonneg_eq (send_current_fst_attributes _) ?_
          intro a ha
          rcases List.mem_or_eq_of_mem_set ha with h1 | h1
          · exact hp a h1
          · rw [h1]
            exact hp ud.attributes[ud.current_idx] (List.getElem_mem h)
    case isFalse h =>
      exact pagesNonneg_eq (by rw [send_current_fst_attributes]) hp

theorem C5_amended_witness :
    (pagesNonneg c5_s1) ∧
    (pagesNonneg (on_attr_callback c5_s1 (AttrCmd.page true)).1) ∧
    (clampedPage 11 5 10 ≤ lastPage 11 10) :=
  ⟨(by decide : ∀ a ∈ c5_s1.attributes, 0 ≤ a.page),
   C5_amended_clamped_at_render_only.2 c5_s1 (AttrCmd.page true)
     (by decide : ∀ a ∈ c5_s1.attributes, 0 ≤ a.page),
   C5_amended_clamped_at_render_only.1 11 5 10⟩

/-- Claim C1 (counterexample): a prepare request whose raw value id 99 is
absent from the canonical mapping of template 1 still yields an ok result —
`config_prepare` reports no `SelectionNotOnTemplate` error. -/
theorem C1_counterexample :
    (ptav_ids_for_values demoCat.ptavs demoStaleReq.template_id
        (demoStaleReq.selections.map Selection.value_id) 99 = none) ∧
    (exceptIsOk (config_prepare demoCat demoStaleReq) = true) := by
  decide

/-- Claim C1 (amended): a raw value id absent from the canonical mapping
does not make `prepare` fail — prepare returns ok, silently leaving the id
unresolved — while `create` is the call that reports it, failing with HTTP
400 and a detail referencing the offending ids. -/
theorem C1_amended_unresolved_ids (cat : Catalog) (p : PrepareReq)
    (tr : TemplateRec) (v : Nat)
    (ht : (cat.templates.filter (fun t => t.id == p.template_id)).head? = some tr)
    (hv : v ∈ p.selections.map Selection.value_id)
    (hmiss : ptav_ids_for_values cat.ptavs p.template_id
        (p.selections.map Selection.value_id) v = none) :
    (exceptIsOk (config_prepare cat p) = true) ∧
    (v ∈ create_missing cat p.template_id (p.selections.map Selection.value_id)) ∧
    (∀ (res : Except OdooError Nat) (post : List VariantRec),
      config_create cat res post
          { template_id := p.template_id, selections := p.selections,
            default_code := p.default_code, barcode := p.barcode }
        = Except.error
            { status := 400,
              detail := missingDetail p.template_id
                (create_missing cat p.template_id
                  (p.selections.map Selection.value_id)) }) := by
  have hmem : v ∈ create_missing cat p.template_id (p.selections.map Selection.value_id) := by
    unfold create_missing
    rw [List.mem_filter]
    exact ⟨hv, by rw [hmiss]; rfl⟩
  refine ⟨?_, hmem, ?_⟩
  · unfold exceptIsOk config_prepare
    rw [ht]
  · intro res post
    unfold config_create
    simp only [ht]
    rw [if_neg (List.ne_nil_of_mem hmem)]

theorem C1_witness :
    ((demoCat.templates.filter (fun t => t.id == demoStaleReq.template_id)).head?
      = some demoTemplate) ∧
    (99 ∈ demoStaleReq.selections.map Selection.value_id) ∧
    (ptav_ids_for_values demoCat.ptavs demoStaleReq.template_id
        (demoStaleReq.selections.map Selection.value_id) 99 = none) ∧
    (exceptIsOk (config_prepare demoCat demoStaleReq) = true) ∧
    (config_create demoCat (Except.ok 500) []
        { template_id := demoStaleReq.template_id, selections := demoStaleReq.selections,
          default_code := demoStaleReq.default_code, barcode := demoStaleReq.barcode }
      = Except.error
          { status := 400,
            detail := missingDetail demoStaleReq.template_id
              (create_missing demoCat demoStaleReq.template_id
                (demoStaleReq.selections.map Selection.value_id)) }) :=
  ⟨by decide, by decide, by decide,
   (C1_amended_unresolved_ids demoCat demoStaleReq demoTemplate 99
     (by decide) (by decide) (by decide)).1,
   (C1_amended_unresolved_ids demoCat demoStaleReq demoTemplate 99
     (by decide) (by decide) (by decide)).2.2 (Except.ok 500) []⟩

theorem toFinset_nil_iff (l : List Nat) : l.toFinset = ∅ ↔ l = [] := by
  constructor
  · intro h
    cases l with
    | nil => rfl
    | cons a t =>
      exact absurd h (Finset.ne_empty_of_mem (show a ∈ (a :: t).toFinset by simp))
  · intro h
    rw [h]
    simp

theorem find_set_invariant (prods : List VariantRec) (tid : Nat)
    (ids1 ids2 : List Nat) (h : ids1.toFinset = ids2.toFinset) :
    find_variant_by_ptav_set prods tid ids1 = find_variant_by_ptav_set prods tid ids2 := by
  unfold find_variant_by_ptav_set
  rcases eq_or_ne ids1 [] with h1 | h1
  · have h2 : ids2 = [] := by
      rw [← toFinset_nil_iff, ← h, h1]
      simp
    rw [h1, h2]
  · have h2 : ids2 ≠ [] := by
      intro e
      apply h1
      rw [← toFinset_nil_iff, h, e]
      simp
    rw [if_neg h1, if_neg h2, h]

/-- Claim C3: combination identity is set-based — two selection lists that
resolve to equal canonical-id sets give `prepare` the same
`existing_variant`, and the `existing_variant` an ok `config_prepare`
returns is exactly the set-based duplicate check `prepare_existing` (which
compares each candidate variant's PTAV set with the requested set). -/
theorem C3_combination_identity :
    (∀ (cat : Catalog) (tid : Nat) (s1 s2 : List Selection),
        (resolved_ptav_ids cat tid s1).toFinset = (resolved_ptav_ids cat tid s2).toFinset →
        prepare_existing cat tid s1 = prepare_existing cat tid s2) ∧
    (∀ (cat : Catalog) (p : PrepareReq) (r : PrepareResp),
        config_prepare cat p = Except.ok r →
        r.existing_variant = prepare_existing cat p.template_id p.selections) := by
  constructor
  · intro cat tid s1 s2 h
    exact find_set_invariant cat.products tid _ _ h
  · intro cat p r h
    unfold config_prepare at h
    split at h
    · exact absurd h (by simp)
    · rw [Except.ok.injEq] at h
      rw [← h]

theorem C3_witness :
    ((resolved_ptav_ids demoCat 1 demoSelsA).toFinset
      = (resolved_ptav_ids demoCat 1 demoSelsB).toFinset) ∧
    (prepare_existing demoCat 1 demoSelsA = prepare_existing demoCat 1 demoSelsB) ∧
    (prepare_existing demoCat 1 demoSelsA = some demoVariantInfo) :=
  ⟨by decide,
   C3_combination_identity.1 demoCat 1 demoSelsA demoSelsB (by decide),
   by decide⟩

/-- Claim C2: when `create_variant` fails with `DuplicateCombination` (the
race case), `config_create` re-runs the combination lookup against the
post-call catalog: a match is returned as ok with `created = false`, and a
miss propagates the failure as a 502 gateway error — no result is
fabricated. -/
theorem C2_duplicate_race_resolution (cat : Catalog) (post : List VariantRec)
    (payload : CreateReq) (tr : TemplateRec)
    (ht : (cat.templates.filter (fun t => t.id == payload.template_id)).head? = some tr)
    (hmiss : create_missing cat payload.template_id
        (payload.selections.map Selection.value_id) = [])
    (hpre : find_variant_by_ptav_set cat.products payload.template_id
        (create_ptav_ids cat payload.template_id
          (payload.selections.map Selection.value_id)) = none) :
    (∀ v, find_variant_by_ptav_set post payload.template_id
        (create_ptav_ids cat payload.template_id
          (payload.selections.map Selection.value_id)) = some v →
      config_create cat (Except.error OdooError.duplicateCombination) post payload
        = Except.ok
            { ok := true, created := false, variant := v,
              message := some ("Variant already exists (detected during create).") }) ∧
    (find_variant_by_ptav_set post payload.template_id
        (create_ptav_ids cat payload.template_id
          (payload.selections.map Selection.value_id)) = none →
      config_create cat (Except.error OdooError.duplicateCombination) post payload
        = Except.error
            { status := 502,
              detail := "Odoo create error: "
                ++ odooErrorText OdooError.duplicateCombination }) := by
  constructor
  · intro v hpost
    unfold config_create
    rw [ht, if_pos hmiss, hpre, hpost]
  · intro hpost
    unfold config_create
    rw [ht, if_pos hmiss, hpre, hpost]

theorem C2_witness :
    ((demoRaceCat.templates.filter
        (fun t => t.id == demoRaceReq.template_id)).head? = some demoTemplate) ∧
    (create_missing demoRaceCat demoRaceReq.template_id
        (demoRaceReq.selections.map Selection.value_id) = []) ∧
    (find_variant_by_ptav_set demoRaceCat.products demoRaceReq.template_id
        (create_ptav_ids demoRaceCat demoRaceReq.template_id
          (demoRaceReq.selections.map Selection.value_id)) = none) ∧
    (find_variant_by_ptav_set [demoVariantRec] demoRaceReq.template_id
        (create_ptav_ids demoRaceCat demoRaceReq.template_id
          (demoRaceReq.selections.map Selection.value_id)) = some demoVariantInfo) ∧
    (config_create demoRaceCat (Except.error OdooError.duplicateCombination)
        [demoVariantRec] demoRaceReq
      = Except.ok
          { ok := true, created := false, variant := demoVariantInfo,
            message := some ("Variant already exists (detected during create).") }) ∧
    (config_create demoRaceCat (Except.error OdooError.duplicateCombination)
        [] demoRaceReq
      = Except.error
          { status := 502,
            detail := "Odoo create error: "
              ++ odooErrorText OdooError.duplicateCombination }) :=
  ⟨by decide, by decide, by decide, by decide,
   (C2_duplicate_race_resolution demoRaceCat [demoVariantRec] demoRaceReq demoTemplate
     (by decide) (by decide) (by decide)).1 demoVariantInfo (by decide),
   (C2_duplicate_race_resolution demoRaceCat [] demoRaceReq demoTemplate
     (by decide) (by decide) (by decide)).2 (by decide)⟩

/-- Claim C8: the race fallback of `config_create` is keyed on *any*
exception (`except Exception`), not only a duplicate-combination rejection —
for every error `e`, if the post-call lookup finds a matching variant the
endpoint answers ok with `created = false` and that match, silently
reporting the failure as "variant already exists". -/
theorem C8_any_exception_fallback (cat : Catalog) (e : OdooError)
    (post : List VariantRec) (payload : CreateReq) (tr : TemplateRec) (v : VariantInfo)
    (ht : (cat.templates.filter (fun t => t.id == payload.template_id)).head? = some tr)
    (hmiss : create_missing cat payload.template_id
        (payload.selections.map Selection.value_id) = [])
    (hpre : find_variant_by_ptav_set cat.products payload.template_id
        (create_ptav_ids cat payload.template_id
          (payload.selections.map Selection.value_id)) = none)
    (hpost : find_variant_by_ptav_set post payload.template_id
        (create_ptav_ids cat payload.template_id
          (payload.selections.map Selection.value_id)) = some v) :
    config_create cat (Except.error e) post payload
      = Except.ok
          { ok := true, created := false, variant := v,
            message := some ("Variant already exists (detected during create).") } := by
  unfold config_create
  rw [ht, if_pos hmiss, hpre, hpost]

theorem C8_witness :
    ((demoRaceCat.templates.filter
        (fun t => t.id == demoRaceReq.template_id)).head? = some demoTemplate) ∧
    (create_missing demoRaceCat demoRaceReq.template_id
        (demoRaceReq.selections.map Selection.value_id) = []) ∧
    (find_variant_by_ptav_set demoRaceCat.products demoRaceReq.template_id
        (create_ptav_ids demoRaceCat demoRaceReq.template_id
          (demoRaceReq.selections.map Selection.value_id)) = none) ∧
    (find_variant_by_ptav_set [demoVariantRec] demoRaceReq.template_id
        (create_ptav_ids demoRaceCat demoRaceReq.template_id
          (demoRaceReq.selections.map Selection.value_id)) = some demoVariantInfo) ∧
    (config_create demoRaceCat (Except.error (OdooError.other ("connection reset")))
        [demoVariantRec] demoRaceReq
      = Except.ok
          { ok := true, created := false, variant := demoVariantInfo,
            message := some ("Variant already exists (detected during create).") }) :=
  ⟨by decide, by decide, by decide, by decide,
   C8_any_exception_fallback demoRaceCat (OdooError.other ("connection reset"))
     [demoVariantRec] demoRaceReq demoTemplate demoVariantInfo
     (by decide) (by decide) (by decide) (by decide)⟩

/-- Claim C9: every ok reply of `POST /config/start` carries at most 20
matches — the template query is issued with `limit=20` no matter how many
templates satisfy the name and `created_by` filters. -/
theorem C9_search_limit (cat : Catalog) (payload : StartReq) (r : StartResp)
    (h : config_start cat payload = Except.ok r) :
    r.matches'.length ≤ 20 := by
  unfold config_start at h
  dsimp only at h
  split at h
  · exact absurd h (by simp)
  · split at h
    · split at h
      · rw [Except.ok.injEq] at h
        rw [← h]
        simp
      · rw [Except.ok.injEq] at h
        rw [← h]
        simp only [List.length_map, List.length_take]
        omega
    · rw [Except.ok.injEq] at h
      rw [← h]
      simp only [List.length_map, List.length_take]
      omega

theorem C9_witness :
    (config_start demoCat demoStartReq = Except.ok demoStartResp) ∧
    demoStartResp.matches'.length ≤ 20 :=
  ⟨by decide, C9_search_limit demoCat demoStartReq demoStartResp (by decide)⟩

/-- Claim C10 (counterexample): with one selection whose value id 99 does
not resolve on template 1, the canonical id set is empty, yet `create` does
*not* proceed to attempt creation — it fails with the 400 missing-values
error, even though (as here) variants of the template exist. -/
theorem C10_counterexample :
    (resolved_ptav_ids demoCat demoStaleCreateReq.template_id
        demoStaleCreateReq.selections = []) ∧
    (demoCat.products.filter (fun p => p.templateId == 1) ≠ []) ∧
    (config_create demoCat (Except.ok 500) demoCat.products demoStaleCreateReq
      = Except.error { status := 400, detail := missingDetail 1 [99] }) := by
  decide

/-- Claim C10 (amended): an empty canonical id set makes
`find_variant_by_combination` return none without consulting the catalog,
so `prepare` reports `existing_variant = none`; `create` proceeds to attempt
creation (even if variants of the template exist) only in the no-selections
case — selections that fail to resolve make `create` fail with the 400
missing-values error instead. -/
theorem C10_empty_combination :
    (∀ (prods : List VariantRec) (tid : Nat),
        find_variant_by_ptav_set prods tid [] = none) ∧
    (∀ (cat : Catalog) (tid : Nat) (sels : List Selection),
        resolved_ptav_ids cat tid sels = [] →
        prepare_existing cat tid sels = none) ∧
    (∀ (cat : Catalog) (post : List VariantRec) (dc bc : Option String)
        (tid : Nat) (tr : TemplateRec) (n : Nat),
        (cat.templates.filter (fun t => t.id == tid)).head? = some tr →
        config_create cat (Except.ok n) post
            { template_id := tid, selections := [], default_code := dc, barcode := bc }
          = Except.ok
              { ok := true, created := true,
                variant := created_variant_info post n dc bc,
                message := some ("Variant created.") }) := by
  refine ⟨fun prods tid => rfl, ?_, ?_⟩
  · intro cat tid sels h
    unfold prepare_existing
    rw [h]
    rfl
  · intro cat post dc bc tid tr n ht
    unfold config_create
    simp only [ht]
    rw [if_pos (by rfl)]
    rfl

theorem C10_witness :
    (find_variant_by_ptav_set demoCat.products 1 [] = none) ∧
    (resolved_ptav_ids demoCat 1 ([] : List Selection) = []) ∧
    (prepare_existing demoCat 1 ([] : List Selection) = none) ∧
    ((demoCat.templates.filter (fun t => t.id == 1)).head? = some demoTemplate) ∧
    (config_create demoCat (Except.ok 500) demoCat.products
        { template_id := 1, selections := [], default_code := none, barcode := none }
      = Except.ok
          { ok := true, created := true,
            variant := created_variant_info demoCat.products 500 none none,
            message := some ("Variant created.") }) :=
  ⟨C10_empty_combination.1 demoCat.products 1,
   by decide,
   C10_empty_combination.2.1 demoCat 1 [] (by decide),
   by decide,
   C10_empty_combination.2.2 demoCat demoCat.products none none 1 demoTemplate 500
     (by decide)⟩

theorem join_windows {α : Type} (per : Nat) :
    ∀ (n : Nat) (items : List α), items.length ≤ n * per →
    ((List.range n).map (fun p => (items.drop (p * per)).take per)).flatten = items := by
  intro n
  induction n with
  | zero =>
    intro items h
    simp only [Nat.zero_mul, Nat.le_zero, List.length_eq_zero] at h
    rw [h]
    rfl
  | succ n ih =>
    intro items h
    rw [List.range_succ_eq_map, List.map_cons, List.map_map, List.flatten_cons]
    have hstep : ∀ p : Nat, Nat.succ p * per = per + p * per := by
      intro p
      rw [Nat.succ_mul, Nat.add_comm]
    have hmap : (List.range n).map ((fun p => (items.drop (p * per)).take per) ∘ Nat.succ)
        = (List.range n).map (fun p => ((items.drop per).drop (p * per)).take per) := by
      apply List.map_congr_left
      intro p _
      show (items.drop (Nat.succ p * per)).take per = _
      rw [hstep p, List.drop_drop]
    have hlen : (items.drop per).length ≤ n * per := by
      rw [List.length_drop]
      have hs : (n + 1) * per = n * per + per := by
        rw [Nat.add_mul, Nat.one_mul]
      omega
    rw [hmap, ih (items.drop per) hlen]
    show (items.drop (0 * per)).take per ++ items.drop per = items
    rw [Nat.zero_mul, List.drop_zero, List.take_append_drop]

theorem length_le_lastPage_succ_mul (len per : Nat) (hp : 0 < per) :
    len ≤ (lastPage len per + 1) * per := by
  unfold lastPage
  rw [Nat.zero_max]
  rcases Nat.eq_zero_or_pos len with h0 | h0
  · omega
  · have hc : 1 ≤ (len + per - 1) / per := by
      rw [Nat.le_div_iff_mul_le hp]
      omega
    have h5 : (len + per - 1) / per - 1 + 1 = (len + per - 1) / per := by omega
    rw [h5]
    have h1 : len + per - 1 < ((len + per - 1) / per + 1) * per := by
      rw [Nat.add_mul, Nat.one_mul]
      have h2 := Nat.div_add_mod (len + per - 1) per
      have h3 := Nat.mod_lt (len + per - 1) hp
      have h4 : (len + per - 1) / per * per = per * ((len + per - 1) / per) :=
        Nat.mul_comm _ _
      omega
    have h6 : ((len + per - 1) / per + 1) * per = (len + per - 1) / per * per + per := by
      rw [Nat.add_mul, Nat.one_mul]
    omega

/-- Claim C7: the paginator is total and partitions its input —
`last_page` is `max(0, ceil(len/page_size) - 1)`, the effective page is
`min(max(page, 0), last_page)`, the window is the slice
`items[page*size : page*size + size]` at the clamped page, concatenating the
windows of pages `0..last_page` yields exactly `items` (so their union is
`items` with no overlaps), and an empty list gives an empty window with
`last_page = 0`. -/
theorem C7_paginator_total (α : Type) (items : List α) (per : Nat) (hp : 0 < per) :
    (lastPage items.length per = max 0 ((items.length + per - 1) / per - 1)) ∧
    (∀ page : Int, (clampedPage items.length page per : Int)
        = min (max page 0) (lastPage items.length per : Int)) ∧
    (∀ page : Int, window items page per
        = (items.drop (clampedPage items.length page per * per)).take per) ∧
    (((List.range (lastPage items.length per + 1)).map
        (fun p => window items (Int.ofNat p) per)).flatten = items) ∧
    (items = [] → lastPage items.length per = 0 ∧
        ∀ page : Int, window items page per = []) := by
  refine ⟨rfl, ?_, fun _ => rfl, ?_, ?_⟩
  · intro page
    unfold clampedPage
    rw [Int.toNat_of_nonneg (le_max_left 0 _)]
    rw [max_def, max_def, min_def, min_def]
    split_ifs <;> omega
  · have hcl : ∀ p : Nat, p ≤ lastPage items.length per →
        clampedPage items.length (Int.ofNat p) per = p := by
      intro p hpL
      unfold clampedPage
      rw [Int.ofNat_eq_natCast]
      rw [min_eq_left (by exact_mod_cast hpL)]
      rw [max_eq_right (by exact_mod_cast Nat.zero_le p)]
      rw [Int.toNat_natCast]
    have hw : (List.range (lastPage items.length per + 1)).map
          (fun p => window items (Int.ofNat p) per)
        = (List.range (lastPage items.length per + 1)).map
          (fun p => (items.drop (p * per)).take per) := by
      apply List.map_congr_left
      intro p hmem
      show (items.drop (clampedPage items.length (Int.ofNat p) per * per)).take per = _
      rw [hcl p (Nat.lt_succ_iff.mp (List.mem_range.mp hmem))]
    rw [hw]
    exact join_windows per _ items (length_le_lastPage_succ_mul items.length per hp)
  · intro h
    rw [h]
    constructor
    · unfold lastPage
      rw [Nat.zero_max]
      simp only [List.length_nil, Nat.zero_add]
      rw [Nat.div_eq_of_lt (by omega)]
    · intro page
      unfold window
      simp

theorem C7_witness :
    (0 < 3) ∧
    (((List.range (lastPage (List.length ([0, 1, 2, 3, 4, 5, 6] : List Nat)) 3 + 1)).map
        (fun p => window ([0, 1, 2, 3, 4, 5, 6] : List Nat) (Int.ofNat p) 3)).flatten
      = [0, 1, 2, 3, 4, 5, 6]) :=
  ⟨by decide,
   (C7_paginator_total Nat [0, 1, 2, 3, 4, 5, 6] 3 (by decide)).2.2.2.1⟩
